import Mathlib

/-!
Verification development for the WatchTogether signaling server and client
(src/server.js, src/unnamed/part_002 server revision, src/app.js and the
client revisions src/unnamed/part_000, src/unnamed/part_001).

The server keeps two JavaScript Maps: `users` (email to account record) and
`rooms` (room id to a record holding a `users` array of socket ids).  Each
socket object additionally carries a custom `roomId` property and the
socket.io channel set it has joined.  We embed these as association lists
and explicit records, and embed every event handler as a pure function from
state to state plus a list of emissions.  An emission records the event
name, the concrete list of recipient socket ids (socket.io: `socket.to(ch)`
delivers to all connected sockets that are members of channel `ch`, the
sender excepted; every socket is automatically a member of the channel
named by its own id), and the payload built by the handler.
-/

namespace WatchTogether

/-- Association list keyed by strings, mirroring a JavaScript Map: lookup
finds the unique entry, set replaces in place or appends, delete removes
the entry. -/
def alookup {α : Type} (m : List (String × α)) (k : String) : Option α :=
  match m with
  | [] => none
  | (k1, v) :: rest => if k1 = k then some v else alookup rest k

/-- Map.set semantics: replace the value at an existing key, else append. -/
def aset {α : Type} (m : List (String × α)) (k : String) (v : α) : List (String × α) :=
  match m with
  | [] => [(k, v)]
  | (k1, v1) :: rest => if k1 = k then (k1, v) :: rest else (k1, v1) :: aset rest k v

/-- Map.delete semantics: remove the entry with the given key. -/
def adelete {α : Type} (m : List (String × α)) (k : String) : List (String × α) :=
  match m with
  | [] => []
  | (k1, v1) :: rest => if k1 = k then rest else (k1, v1) :: adelete rest k

/-- JavaScript truthiness of the `socket.roomId` string property: undefined
and the empty string are falsy. -/
def jsTruthy (o : Option String) : Bool :=
  match o with
  | none => false
  | some s => s != ""

/-- One connected socket: its id, its custom `roomId` property, and the
socket.io channels it has joined via `socket.join` (its own id channel is
implicit and not listed here). -/
structure Conn where
  id : String
  roomField : Option String
  chans : List String
deriving Repr, DecidableEq

/-- The room registry: room id to the `users` array of the room record. -/
abbrev Registry := List (String × List String)

/-- Server state: the connected sockets and the `rooms` Map. -/
structure SrvState where
  conns : List Conn
  rooms : Registry
deriving Repr, DecidableEq

/-- A socket is a member of channel `ch` iff `ch` is its own id channel or a
channel it joined. -/
def inChannel (c : Conn) (ch : String) : Bool :=
  c.id == ch || c.chans.contains ch

/-- Recipients of `socket.to(ch).emit(...)`: every connected socket in
channel `ch` except the sender, in connection order. -/
def socketTo (cs : List Conn) (senderId ch : String) : List String :=
  (cs.filter (fun c => c.id != senderId && inChannel c ch)).map Conn.id

/-- Payloads built by the server handlers. Client blobs (offers,
answers, candidates, video-state data) are carried as strings. -/
inductive Payload where
  | roomUsers (users : List String)
  | userJoined (sid : String)
  | userLeft (sid : String)
  | offerMsg (blob : String) (sender : String)
  | answerMsg (blob : String) (sender : String)
  | iceMsg (blob : String) (sender : String)
  | videoState (blob : String) (sender : String)
  | chatMsg (username : String) (text : String) (timestamp : String)
deriving Repr, DecidableEq

/-- One outbound emission: event name, recipient socket ids, payload. -/
structure Emission where
  event : String
  recipients : List String
  payload : Payload
deriving Repr, DecidableEq

def findConn (cs : List Conn) (sid : String) : Option Conn :=
  cs.find? (fun c => c.id == sid)

/-- The join-room handler, src/server.js lines 147-164 (identical logic in
src/unnamed/part_002 lines 158-185): leave the old channel if the roomId
property is truthy, join the new channel, set the roomId property,
lazily create the room record, push the socket id if absent, emit the
member snapshot to the joiner and user-joined to the rest of the room.
Note that the handler never removes the socket id from the old room record
in the registry. -/
def handleJoinRoom (s : SrvState) (sid roomId : String) : SrvState × List Emission :=
  match findConn s.conns sid with
  | none => (s, [])
  | some c =>
    let chans1 := if jsTruthy c.roomField then
        c.chans.filter (fun x => some x != c.roomField)
      else c.chans
    let chans2 := if chans1.contains roomId then chans1 else chans1 ++ [roomId]
    let c2 : Conn := { c with roomField := some roomId, chans := chans2 }
    let conns2 := s.conns.map (fun x => if x.id == sid then c2 else x)
    let rooms1 := if (alookup s.rooms roomId).isSome then s.rooms
      else aset s.rooms roomId []
    let users := (alookup rooms1 roomId).getD []
    let users2 := if users.contains sid then users else users ++ [sid]
    let rooms2 := aset rooms1 roomId users2
    let e1 : Emission :=
      { event := "room-users", recipients := [sid],
        payload := Payload.roomUsers (users2.filter (fun x => x != sid)) }
    let e2 : Emission :=
      { event := "user-joined", recipients := socketTo conns2 sid roomId,
        payload := Payload.userJoined sid }
    ({ conns := conns2, rooms := rooms2 }, [e1, e2])

/-- The disconnect handler body, src/server.js lines 199-211 and
src/unnamed/part_002 lines 210-232.  The `rf` argument is the value of the
`socket.roomId` property, which is a field of the long-lived socket object
and is never cleared by the handler; the registry mutation filters the
socket id out of the room record, emits user-left to the room channel, and
deletes the record when the filtered member array is empty. -/
def handleDisconnect (s : SrvState) (sid : String) (rf : Option String) :
    SrvState × List Emission :=
  if jsTruthy rf then
    match rf with
    | none => (s, [])
    | some r =>
      match alookup s.rooms r with
      | none => (s, [])
      | some users =>
        let users2 := users.filter (fun x => x != sid)
        let em : Emission :=
          { event := "user-left", recipients := socketTo s.conns sid r,
            payload := Payload.userLeft sid }
        let rooms2 := if users2.isEmpty then adelete s.rooms r
          else aset s.rooms r users2
        ({ s with rooms := rooms2 }, [em])
  else (s, [])

/-- The offer relay, src/server.js lines 167-172: emit to the channel named
by the target field, attaching the sender id. -/
def handleOffer (s : SrvState) (sid target blob : String) : List Emission :=
  [{ event := "offer", recipients := socketTo s.conns sid target,
     payload := Payload.offerMsg blob sid }]

/-- The answer relay, src/server.js lines 174-179. -/
def handleAnswer (s : SrvState) (sid target blob : String) : List Emission :=
  [{ event := "answer", recipients := socketTo s.conns sid target,
     payload := Payload.answerMsg blob sid }]

/-- The ice-candidate relay, src/server.js lines 181-186. -/
def handleIce (s : SrvState) (sid target blob : String) : List Emission :=
  [{ event := "ice-candidate", recipients := socketTo s.conns sid target,
     payload := Payload.iceMsg blob sid }]

/-- The video-state relay, src/unnamed/part_002 lines 202-204: broadcast to
the channel named by the roomId property of the handling socket, sender attached.
With an undefined roomId the channel has no members. -/
def handleVideoState (s : SrvState) (sid : String) (rf : Option String)
    (blob : String) : List Emission :=
  [{ event := "video-state",
     recipients := match rf with
       | some r => socketTo s.conns sid r
       | none => [],
     payload := Payload.videoState blob sid }]

/-- The chat-message relay, src/server.js lines 189-196 and
src/unnamed/part_002 lines 206-208: broadcast to the room channel except
the sender, repacking username, text and timestamp. -/
def handleChatMsg (s : SrvState) (sid : String) (rf : Option String)
    (username message timestamp : String) : List Emission :=
  [{ event := "chat-message",
     recipients := match rf with
       | some r => socketTo s.conns sid r
       | none => [],
     payload := Payload.chatMsg username message timestamp }]

/-- Events processed by the signaling server event loop. -/
inductive SEvent where
  | connect (sid : String)
  | joinRoom (sid roomId : String)
  | offerEv (sid target blob : String)
  | answerEv (sid target blob : String)
  | iceEv (sid target blob : String)
  | videoEv (sid blob : String)
  | chatEv (sid username message timestamp : String)
  | disconnectEv (sid : String)
deriving Repr, DecidableEq

/-- One event-loop step: dispatch to the matching handler.  A connect adds
a fresh socket with no joined channels; a disconnect runs the handler with
the current roomId property of the socket and then drops the socket (socket.io
removes the closed socket from the namespace and all channels). -/
def step (s : SrvState) (e : SEvent) : SrvState × List Emission :=
  match e with
  | .connect sid =>
    if (findConn s.conns sid).isSome then (s, [])
    else ({ s with conns := s.conns ++ [{ id := sid, roomField := none, chans := [] }] }, [])
  | .joinRoom sid r => handleJoinRoom s sid r
  | .offerEv sid t b => (s, handleOffer s sid t b)
  | .answerEv sid t b => (s, handleAnswer s sid t b)
  | .iceEv sid t b => (s, handleIce s sid t b)
  | .videoEv sid b =>
    (s, handleVideoState s sid ((findConn s.conns sid).bind Conn.roomField) b)
  | .chatEv sid un msg ts =>
    (s, handleChatMsg s sid ((findConn s.conns sid).bind Conn.roomField) un msg ts)
  | .disconnectEv sid =>
    let rf := (findConn s.conns sid).bind Conn.roomField
    let p := handleDisconnect s sid rf
    ({ p.1 with conns := p.1.conns.filter (fun c => c.id != sid) }, p.2)

/-- Run a sequence of events from a state, keeping only the final state. -/
def run (s : SrvState) (es : List SEvent) : SrvState :=
  match es with
  | [] => s
  | e :: rest => run (step s e).1 rest

/-- The empty initial server state. -/
def s0 : SrvState := { conns := [], rooms := [] }

/-- Run a sequence of events from the initial state. -/
def srvRun (es : List SEvent) : SrvState := run s0 es

/-- A connection id is in the member set of at most one registry room. -/
def atMostOneRoom (s : SrvState) (x : String) : Bool :=
  (s.rooms.filter (fun p => p.2.contains x)).length ≤ 1

/-- No room record in the registry has an empty member array. -/
def noEmptyRooms (s : SrvState) : Bool :=
  s.rooms.all (fun p => !p.2.isEmpty)

/-- A lookup of room `r` finds either no record or a record with at least
one member: no stale empty entry. -/
def noStaleEntry (s : SrvState) (r : String) : Bool :=
  match alookup s.rooms r with
  | none => true
  | some us => !us.isEmpty

theorem alookup_aset_self {α : Type} (m : List (String × α)) (k : String) (v : α) :
    alookup (aset m k v) k = some v := by
  induction m with
  | nil => simp [aset, alookup]
  | cons hd tl ih =>
    by_cases h : hd.1 = k
    · simp [aset, alookup, h]
    · simp [aset, alookup, h, ih]

theorem aset_all {α : Type} {m : List (String × α)} {p : String × α → Bool}
    {k : String} {v : α} (h : m.all p = true) (hv : p (k, v) = true) :
    (aset m k v).all p = true := by
  induction m with
  | nil => simpa [aset]
  | cons hd tl ih =>
    simp only [List.all_cons, Bool.and_eq_true] at h
    by_cases hk : hd.1 = k
    · simp [aset, hk, List.all_cons, h.2]
      exact hv
    · simp [aset, hk, List.all_cons, h.1, ih h.2]

theorem adelete_all {α : Type} {m : List (String × α)} {p : String × α → Bool}
    {k : String} (h : m.all p = true) : (adelete m k).all p = true := by
  induction m with
  | nil => simp [adelete]
  | cons hd tl ih =>
    simp only [List.all_cons, Bool.and_eq_true] at h
    by_cases hk : hd.1 = k
    · simpa [adelete, hk] using h.2
    · simp [adelete, hk, List.all_cons, h.1, ih h.2]

theorem aset_aset {α : Type} (m : List (String × α)) (k : String) (v w : α) :
    aset (aset m k v) k w = aset m k w := by
  induction m with
  | nil => simp [aset]
  | cons hd tl ih =>
    by_cases hk : hd.1 = k
    · simp [aset, hk]
    · simp [aset, hk, ih]

theorem alookup_all {α : Type} {m : List (String × α)} {p : String × α → Bool}
    {k : String} {v : α} (h : m.all p = true) (hl : alookup m k = some v) :
    p (k, v) = true := by
  induction m with
  | nil => simp [alookup] at hl
  | cons hd tl ih =>
    simp only [List.all_cons, Bool.and_eq_true] at h
    by_cases hk : hd.1 = k
    · simp [alookup, hk] at hl
      have hp := h.1
      have : hd = (k, v) := by
        cases hd; simp_all
      rw [this] at hp; exact hp
    · simp [alookup, hk] at hl
      exact ih h.2 hl

/-- The registry after a join-room of a connected socket: the room record
for the joined room gains the socket id if absent, every other record is
untouched. -/
theorem handleJoinRoom_rooms (s : SrvState) (sid r : String) (c : Conn)
    (hf : findConn s.conns sid = some c) :
    (handleJoinRoom s sid r).1.rooms =
      aset s.rooms r
        (match alookup s.rooms r with
         | none => [sid]
         | some us => if us.contains sid then us else us ++ [sid]) := by
  cases halk : alookup s.rooms r with
  | none =>
    simp [handleJoinRoom, hf, halk, alookup_aset_self, aset_aset]
  | some us =>
    simp [handleJoinRoom, hf, halk]

/-- The disconnect handler never mutates the connection list. -/
theorem handleDisconnect_conns (s : SrvState) (sid : String) (rf : Option String) :
    (handleDisconnect s sid rf).1.conns = s.conns := by
  unfold handleDisconnect
  split
  · split
    · rfl
    · split
      · rfl
      · rfl
  · rfl

theorem handleDisconnect_noEmpty (s : SrvState) (sid : String) (rf : Option String)
    (h : noEmptyRooms s = true) :
    noEmptyRooms (handleDisconnect s sid rf).1 = true := by
  simp only [noEmptyRooms] at h
  cases rf with
  | none => simpa [handleDisconnect, jsTruthy, noEmptyRooms] using h
  | some r =>
    by_cases hr : r = ""
    · subst hr
      simpa [handleDisconnect, jsTruthy, noEmptyRooms] using h
    · have hrt : jsTruthy (some r) = true := by simp [jsTruthy, hr]
      cases hl : alookup s.rooms r with
      | none =>
        simpa [handleDisconnect, hrt, hl, noEmptyRooms] using h
      | some users =>
        by_cases he : (users.filter (fun x => x != sid)).isEmpty
        · simp only [handleDisconnect, hrt, hl, he, if_true, noEmptyRooms]
          exact adelete_all h
        · simp only [handleDisconnect, hrt, hl, he, if_true, if_false, noEmptyRooms]
          apply aset_all h
          simpa using he

theorem step_noEmptyRooms (s : SrvState) (e : SEvent)
    (h : noEmptyRooms s = true) : noEmptyRooms (step s e).1 = true := by
  cases e with
  | connect sid =>
    simp only [step]
    split
    · exact h
    · exact h
  | joinRoom sid r =>
    simp only [step]
    cases hf : findConn s.conns sid with
    | none => simp only [handleJoinRoom, hf]; exact h
    | some c =>
      simp only [noEmptyRooms] at h ⊢
      rw [handleJoinRoom_rooms s sid r c hf]
      apply aset_all h
      cases halk : alookup s.rooms r with
      | none => simp
      | some us =>
        have hne : (!us.isEmpty) = true :=
          alookup_all (p := fun q => !q.2.isEmpty) h halk
        show (!(if us.contains sid then us else us ++ [sid]).isEmpty) = true
        by_cases hin : us.contains sid
        · rw [if_pos hin]; exact hne
        · rw [if_neg hin]
          simp
  | offerEv sid t b => exact h
  | answerEv sid t b => exact h
  | iceEv sid t b => exact h
  | videoEv sid b => exact h
  | chatEv sid un msg ts => exact h
  | disconnectEv sid =>
    have h2 := handleDisconnect_noEmpty s sid
      ((findConn s.conns sid).bind Conn.roomField) h
    simpa [step, noEmptyRooms] using h2

theorem run_noEmptyRooms (es : List SEvent) :
    ∀ s : SrvState, noEmptyRooms s = true → noEmptyRooms (run s es) = true := by
  induction es with
  | nil => intro s h; simpa [run] using h
  | cons e rest ih =>
    intro s h
    simpa [run] using ih (step s e).1 (step_noEmptyRooms s e h)

/-- Claim C4: for every sequence of server events processed from the empty
initial state, the room registry never holds a record with an empty member
array, and a lookup of any room id finds no stale empty entry: the event
that removes the last member of a room also deletes the room record. -/
theorem rooms_never_empty (es : List SEvent) (r : String) :
    noEmptyRooms (srvRun es) = true ∧ noStaleEntry (srvRun es) r = true := by
  have h : noEmptyRooms (srvRun es) = true :=
    run_noEmptyRooms es s0 (by decide)
  refine ⟨h, ?_⟩
  have h2 : (srvRun es).rooms.all (fun q => !q.2.isEmpty) = true := h
  simp only [noStaleEntry]
  cases hl : alookup (srvRun es).rooms r with
  | none => simp
  | some us => exact alookup_all (p := fun q => !q.2.isEmpty) h2 hl

/-- The concrete trace that exhibits the room-switch registry bug: socket A
connects, joins room R1, then joins room R2. -/
def switchTrace : List SEvent :=
  [SEvent.connect "A", SEvent.joinRoom "A" "R1", SEvent.joinRoom "A" "R2"]

/-- Claim C1, code evaluated at the failing input: after A joins R1 and then
joins R2, the registry still lists A as a member of R1 as well as of R2, so
the connection id A is in two member sets at once and the claimed invariant
is false of the code.  The join-room handler leaves the socket.io channel of
the old room but never removes the id from the old room record. -/
theorem room_switch_keeps_stale_member :
    alookup (srvRun switchTrace).rooms "R1" = some ["A"] ∧
    alookup (srvRun switchTrace).rooms "R2" = some ["A"] ∧
    atMostOneRoom (srvRun switchTrace) "A" = false := by
  decide

/-- The concrete trace for an empty-string join: socket A connects and sends
join-room with the empty room id. -/
def emptyJoinTrace : List SEvent :=
  [SEvent.connect "A", SEvent.joinRoom "A" ""]

/-- Claim C6, counterexample: the claim says a join-room with an empty room
id is rejected and no room record is created; in fact the handler creates a
registry record keyed by the empty string with A as its member. -/
theorem empty_join_creates_room :
    alookup (srvRun emptyJoinTrace).rooms "" = some ["A"] := by
  decide

/-- Claim C6 amended: a join-room with an empty room id is not rejected; the
server creates a room record keyed by the empty string containing the
connection, sets the roomId property of the connection to the empty string and
joins it to the empty-string channel; the handler is a total function, so
the relay does not crash. -/
theorem empty_join_behaviour :
    (srvRun emptyJoinTrace).rooms = [("", ["A"])] ∧
    findConn (srvRun emptyJoinTrace).conns "A" =
      some { id := "A", roomField := some "", chans := [""] } := by
  decide

/-- The connected sockets have pairwise distinct ids. -/
def idsNodup (s : SrvState) : Prop := (s.conns.map Conn.id).Nodup

/-- Some connected socket has id `t`. -/
def hasConnId (s : SrvState) (t : String) : Prop := ∃ c, c ∈ s.conns ∧ c.id = t

/-- No connected socket has joined a channel named `t`: room names do not
collide with connection ids. -/
def noRoomNamed (s : SrvState) (t : String) : Prop := ∀ c ∈ s.conns, t ∉ c.chans

instance (s : SrvState) : Decidable (idsNodup s) := by
  unfold idsNodup; infer_instance

instance (s : SrvState) (t : String) : Decidable (hasConnId s t) := by
  unfold hasConnId; infer_instance

instance (s : SrvState) (t : String) : Decidable (noRoomNamed s t) := by
  unfold noRoomNamed; infer_instance

/-- When the target channel is the private channel of connection `t` (no
room is named `t`), socket.io delivery reaches exactly the connection `t`. -/
theorem socketTo_single (cs : List Conn) (sid t : String)
    (hnd : (cs.map Conn.id).Nodup)
    (hmem : ∃ c, c ∈ cs ∧ c.id = t)
    (hchan : ∀ c ∈ cs, t ∉ c.chans)
    (hne : t ≠ sid) :
    socketTo cs sid t = [t] := by
  induction cs with
  | nil =>
    obtain ⟨c, hc, _⟩ := hmem
    simp at hc
  | cons c rest ih =>
    rw [List.map_cons, List.nodup_cons] at hnd
    by_cases hct : c.id = t
    · have hpc : (c.id != sid && inChannel c t) = true := by
        simp [inChannel, hct, hne]
      have hrest : rest.filter (fun c' => c'.id != sid && inChannel c' t) = [] := by
        rw [List.filter_eq_nil_iff]
        intro c' hc'
        have h1 : c'.id ≠ t := by
          intro he
          apply hnd.1
          rw [hct, ← he]
          exact List.mem_map_of_mem Conn.id hc'
        have h2 : t ∉ c'.chans := hchan c' (List.mem_cons_of_mem _ hc')
        simp [inChannel, h1, h2]
      simp only [socketTo, List.filter_cons]
      rw [if_pos hpc, hrest]
      simp [hct]
    · have h2 : t ∉ c.chans := hchan c (List.mem_cons_self _ _)
      have hpc : (c.id != sid && inChannel c t) = false := by
        simp [inChannel, hct, h2]
      have hmem' : ∃ c', c' ∈ rest ∧ c'.id = t := by
        obtain ⟨c', hc', he⟩ := hmem
        rcases List.mem_cons.mp hc' with h | h
        · exact absurd (h ▸ he) hct
        · exact ⟨c', h, he⟩
      have ih' := ih hnd.2 hmem' (fun c' h => hchan c' (List.mem_cons_of_mem _ h))
      simp only [socketTo] at ih' ⊢
      rw [List.filter_cons, if_neg (by simp [hpc])]
      exact ih'

/-- The sender never receives its own relayed or broadcast message. -/
theorem socketTo_not_sender (cs : List Conn) (sid ch : String) :
    sid ∉ socketTo cs sid ch := by
  intro hmem
  obtain ⟨c, hcf, hid⟩ := List.mem_map.mp hmem
  have hp := (List.mem_filter.mp hcf).2
  rw [Bool.and_eq_true] at hp
  have := hp.1
  rw [hid] at this
  simp at this

/-- Delivery lists inherit distinctness from the connection ids. -/
theorem socketTo_nodup (cs : List Conn) (sid ch : String)
    (hnd : (cs.map Conn.id).Nodup) : (socketTo cs sid ch).Nodup := by
  have hsub : List.Sublist
      ((cs.filter (fun c => c.id != sid && inChannel c ch)).map Conn.id)
      (cs.map Conn.id) :=
    (List.filter_sublist cs).map Conn.id
  exact hnd.sublist hsub

/-- Membership in the delivery list of a room channel characterises exactly
the connections in that channel other than the sender. -/
theorem socketTo_mem_iff (cs : List Conn) (sid ch : String)
    (hnd : (cs.map Conn.id).Nodup) (c : Conn) (hc : c ∈ cs) :
    c.id ∈ socketTo cs sid ch ↔ (c.id ≠ sid ∧ inChannel c ch = true) := by
  constructor
  · intro hmem
    obtain ⟨c', hcf, hid⟩ := List.mem_map.mp hmem
    obtain ⟨hc', hp⟩ := List.mem_filter.mp hcf
    have hcc : c' = c := List.inj_on_of_nodup_map hnd hc' hc hid
    subst hcc
    rw [Bool.and_eq_true] at hp
    refine ⟨?_, hp.2⟩
    simpa using hp.1
  · rintro ⟨h1, h2⟩
    apply List.mem_map_of_mem Conn.id
    apply List.mem_filter.mpr
    refine ⟨hc, ?_⟩
    rw [Bool.and_eq_true]
    exact ⟨by simpa using h1, h2⟩

/-- The conclusion of claim C2: each of the three directed relays emits a
single message whose recipient list is exactly the target connection, with
the sender id attached. -/
def C2Prop (s : SrvState) (sid t blob : String) : Prop :=
  handleOffer s sid t blob =
    [{ event := "offer", recipients := [t], payload := Payload.offerMsg blob sid }] ∧
  handleAnswer s sid t blob =
    [{ event := "answer", recipients := [t], payload := Payload.answerMsg blob sid }] ∧
  handleIce s sid t blob =
    [{ event := "ice-candidate", recipients := [t],
       payload := Payload.iceMsg blob sid }]

/-- Claim C2: a relay step for offer, answer or ice-candidate with a target
field equal to the id of a connected socket (distinct from the sender, with
distinct socket ids and no room channel named after the target) delivers
the payload, with sender attached, to that connection and to no other; it
is never broadcast to the rest of the room. -/
theorem directed_relay_exact_target (s : SrvState) (sid t blob : String)
    (hnd : idsNodup s) (hmem : hasConnId s t) (hchan : noRoomNamed s t)
    (hne : t ≠ sid) : C2Prop s sid t blob := by
  have h := socketTo_single s.conns sid t hnd hmem hchan hne
  refine ⟨?_, ?_, ?_⟩ <;> simp [handleOffer, handleAnswer, handleIce, h]

/-- A two-member room for the relay witnesses. -/
def relayS : SrvState :=
  { conns := [{ id := "A", roomField := some "R", chans := ["R"] },
              { id := "B", roomField := some "R", chans := ["R"] }],
    rooms := [("R", ["A", "B"])] }

/-- Witness for claim C2 at a concrete two-member room: A relays to target
B and exactly B receives. -/
theorem directed_relay_exact_target_witness :
    (idsNodup relayS ∧ hasConnId relayS "B" ∧ noRoomNamed relayS "B" ∧
      ("B" : String) ≠ "A") ∧ C2Prop relayS "A" "B" "sdp" :=
  ⟨by decide,
   directed_relay_exact_target relayS "A" "B" "sdp"
     (by decide) (by decide) (by decide) (by decide)⟩

/-- The conclusion of claim C3: video-state and chat-message from a sender
whose roomId property is R produce exactly one emission each, over one and
the same recipient list, which never contains the sender, contains no
duplicates, and contains a connection id exactly when that connection is in
the room channel R and is not the sender. -/
def C3Prop (s : SrvState) (sid R blob un msg ts : String) : Prop :=
  ∃ recips : List String,
    handleVideoState s sid (some R) blob =
      [{ event := "video-state", recipients := recips,
         payload := Payload.videoState blob sid }] ∧
    handleChatMsg s sid (some R) un msg ts =
      [{ event := "chat-message", recipients := recips,
         payload := Payload.chatMsg un msg ts }] ∧
    sid ∉ recips ∧ recips.Nodup ∧
    ∀ c ∈ s.conns, (c.id ∈ recips ↔ (c.id ≠ sid ∧ inChannel c R = true))

/-- Claim C3: a video-state or chat-message from sender S, a member of room
R, is delivered exactly once to every current member of R (the connections
in the room channel) other than S, and never back to S; the video-state
payload carries the sender id. -/
theorem room_broadcast_excludes_sender (s : SrvState) (sid R blob un msg ts : String)
    (hnd : idsNodup s) : C3Prop s sid R blob un msg ts := by
  refine ⟨socketTo s.conns sid R, rfl, rfl, ?_, ?_, ?_⟩
  · exact socketTo_not_sender s.conns sid R
  · exact socketTo_nodup s.conns sid R hnd
  · intro c hc
    exact socketTo_mem_iff s.conns sid R hnd c hc

/-- Witness for claim C3 at the concrete two-member room: sender A, member
B receives exactly once. -/
theorem room_broadcast_excludes_sender_witness :
    idsNodup relayS ∧ C3Prop relayS "A" "R" "vs" "alice" "hi" "t0" :=
  ⟨by decide,
   room_broadcast_excludes_sender relayS "A" "R" "vs" "alice" "hi" "t0" (by decide)⟩

/-- The keys of an association list are pairwise distinct. -/
def keysNodup {α : Type} (m : List (String × α)) : Prop := (m.map Prod.fst).Nodup

instance {α : Type} (m : List (String × α)) : Decidable (keysNodup m) := by
  unfold keysNodup; infer_instance

theorem alookup_eq_none {α : Type} {m : List (String × α)} {k : String}
    (h : k ∉ m.map Prod.fst) : alookup m k = none := by
  induction m with
  | nil => rfl
  | cons hd tl ih =>
    simp only [List.map_cons, List.mem_cons] at h
    push_neg at h
    rw [alookup, if_neg (fun he => h.1 he.symm)]
    exact ih h.2

theorem alookup_adelete {α : Type} {m : List (String × α)} {k : String}
    (h : keysNodup m) : alookup (adelete m k) k = none := by
  induction m with
  | nil => rfl
  | cons hd tl ih =>
    rw [keysNodup, List.map_cons, List.nodup_cons] at h
    by_cases hk : hd.1 = k
    · rw [adelete]
      simp only [hk, if_true]
      exact alookup_eq_none (hk ▸ h.1)
    · rw [adelete]
      simp only [hk, if_false]
      rw [alookup]
      simp [hk, ih h.2]

theorem filter_idem {α : Type} (l : List α) (p : α → Bool) :
    (l.filter p).filter p = l.filter p := by
  induction l with
  | nil => rfl
  | cons a l ih =>
    by_cases h : p a
    · simp [List.filter_cons, h, ih]
    · simp [List.filter_cons, h, ih]

/-- The state after the first disconnect of A in the two-member room, with
socket.io having removed the closed socket from the namespace; the roomId
property of the dead socket object is untouched and still holds R. -/
def afterFirstDisc : SrvState :=
  let p := handleDisconnect relayS "A" (some "R")
  { p.1 with conns := p.1.conns.filter (fun c => c.id != "A") }

/-- Claim C5, counterexample: processing the disconnect path a second time
for connection A (after the first completed) emits user-left to the
remaining member B again, because the handler guards only on the existence
of the room record, not on membership of the departing id.  The registry is
left unchanged, so the claim fails only in its no-second-notification part. -/
theorem second_disconnect_reemits_user_left :
    (handleDisconnect afterFirstDisc "A" (some "R")).2 =
      [{ event := "user-left", recipients := ["B"],
         payload := Payload.userLeft "A" }] ∧
    (handleDisconnect afterFirstDisc "A" (some "R")).1 = afterFirstDisc := by
  decide

/-- The conclusion of claim C5 as amended: a second pass of the disconnect
handler for the same connection and room leaves the state exactly as after
the first pass (the handler is a total function, so no error is raised);
it emits nothing when the first pass deleted the room (the connection was
the last member), and re-emits exactly one user-left to the room channel
when the room record still exists. -/
def C5Prop (s : SrvState) (sid r : String) : Prop :=
  (handleDisconnect (handleDisconnect s sid (some r)).1 sid (some r)).1 =
    (handleDisconnect s sid (some r)).1 ∧
  (alookup (handleDisconnect s sid (some r)).1.rooms r = none →
    (handleDisconnect (handleDisconnect s sid (some r)).1 sid (some r)).2 = []) ∧
  (∀ us, alookup (handleDisconnect s sid (some r)).1.rooms r = some us →
    (handleDisconnect (handleDisconnect s sid (some r)).1 sid (some r)).2 =
      [{ event := "user-left", recipients := socketTo s.conns sid r,
         payload := Payload.userLeft sid }])

/-- Claim C5 amended: the duplicate disconnect pass never raises an error
and is idempotent on the registry, but a second user-left notification is
re-emitted exactly when the room record survived the first pass; no second
notification happens only in the last-member case. -/
theorem duplicate_disconnect_idempotent_state (s : SrvState) (sid r : String)
    (hr : r ≠ "") (hk : keysNodup s.rooms) : C5Prop s sid r := by
  have hrt : jsTruthy (some r) = true := by simp [jsTruthy, hr]
  cases hl : alookup s.rooms r with
  | none =>
    have hp1 : handleDisconnect s sid (some r) = (s, []) := by
      simp [handleDisconnect, hrt, hl]
    refine ⟨?_, ?_, ?_⟩
    · rw [hp1]
      simp [handleDisconnect, hrt, hl]
    · intro _
      rw [hp1]
      simp [handleDisconnect, hrt, hl]
    · intro us hus
      rw [hp1] at hus
      simp only at hus
      rw [hl] at hus
      cases hus
  | some users =>
    by_cases hue : (users.filter (fun x => x != sid)).isEmpty
    · have hp1 : handleDisconnect s sid (some r) =
        ({ s with rooms := adelete s.rooms r },
         [{ event := "user-left", recipients := socketTo s.conns sid r,
            payload := Payload.userLeft sid }]) := by
        simp [handleDisconnect, hrt, hl, hue]
      have hnone : alookup (adelete s.rooms r) r = none := alookup_adelete hk
      refine ⟨?_, ?_, ?_⟩
      · rw [hp1]
        simp [handleDisconnect, hrt, hnone]
      · intro _
        rw [hp1]
        simp [handleDisconnect, hrt, hnone]
      · intro us hus
        rw [hp1] at hus
        simp only at hus
        rw [hnone] at hus
        cases hus
    · have hp1 : handleDisconnect s sid (some r) =
        ({ s with rooms := aset s.rooms r (users.filter (fun x => x != sid)) },
         [{ event := "user-left", recipients := socketTo s.conns sid r,
            payload := Payload.userLeft sid }]) := by
        simp [handleDisconnect, hrt, hl, hue]
      have hsome : alookup (aset s.rooms r (users.filter (fun x => x != sid))) r =
          some (users.filter (fun x => x != sid)) := alookup_aset_self _ _ _
      have hue2 : ((users.filter (fun x => x != sid)).filter
          (fun x => x != sid)).isEmpty = false := by
        rw [filter_idem]
        simpa using hue
      refine ⟨?_, ?_, ?_⟩
      · rw [hp1]
        simp only [handleDisconnect, hrt, if_true, hsome, hue2, if_false,
          filter_idem, aset_aset]
        rw [if_neg hue]
      · intro hcontra
        rw [hp1] at hcontra
        simp only at hcontra
        rw [hsome] at hcontra
        cases hcontra
      · intro us hus
        rw [hp1]
        simp [handleDisconnect, hrt, hsome]

/-- Witness for the amended claim C5 in the two-member room: the repeat
pass is idempotent on the state and re-emits user-left to B because the
room record survives. -/
theorem duplicate_disconnect_idempotent_state_witness :
    (("R" : String) ≠ "" ∧ keysNodup relayS.rooms) ∧ C5Prop relayS "A" "R" :=
  ⟨by decide,
   duplicate_disconnect_idempotent_state relayS "A" "R" (by decide) (by decide)⟩

/-! Client-side playback synchronisation, src/app.js (YouTubeWatchTogether).
Playback positions are modelled as rationals; the YT IFrame player is the
external collaborator receiving seek, play, pause and load commands. -/

/-- YT.PlayerState.PLAYING. -/
def YTplaying : Int := 1
/-- YT.PlayerState.PAUSED. -/
def YTpaused : Int := 2
/-- YT.PlayerState.CUED. -/
def YTcued : Int := 5

/-- The local player as observed by the handler: getCurrentTime,
getPlayerState, getVideoData().video_id. -/
structure PlayerSt where
  currentTime : Rat
  playerState : Int
  videoId : String
deriving Repr, DecidableEq

/-- A received video-state payload: sender, state, currentTime, videoId. -/
structure VideoMsg where
  sender : String
  state : Int
  currentTime : Rat
  videoId : String
deriving Repr, DecidableEq

/-- Commands issued to the player, in order. -/
inductive PAct where
  | seekTo (t : Rat)
  | playVideo
  | pauseVideo
  | loadVideoById (v : String)
deriving Repr, DecidableEq

/-- YouTubeWatchTogether.handleVideoStateChange, src/app.js lines 738-753:
for PLAYING and PAUSED, seek when the position drift exceeds 1 second and
then apply play/pause when the local player is not already in that state;
for CUED, reload only when the video id differs.  (The revisions in
src/unnamed/part_001 and src/unnamed/part_000 use drift thresholds of 0.5
and 2 seconds respectively.) -/
def handleVideoStateChange (p : PlayerSt) (d : VideoMsg) : List PAct :=
  if d.state = YTplaying then
    (if |p.currentTime - d.currentTime| > 1 then [PAct.seekTo d.currentTime] else []) ++
    (if p.playerState ≠ YTplaying then [PAct.playVideo] else [])
  else if d.state = YTpaused then
    (if |p.currentTime - d.currentTime| > 1 then [PAct.seekTo d.currentTime] else []) ++
    (if p.playerState ≠ YTpaused then [PAct.pauseVideo] else [])
  else if d.state = YTcued ∧ p.videoId ≠ d.videoId then
    [PAct.loadVideoById d.videoId]
  else []

/-- The socket.on video-state guard, src/app.js line 594: the handler runs
only when a player exists and the sender is not this client. -/
def onVideoStateMsg (selfId : String) (p : PlayerSt) (d : VideoMsg) : List PAct :=
  if d.sender ≠ selfId then handleVideoStateChange p d else []

/-- The conclusion of claim C7 over the issued command list: the seek
happens exactly when the message is PLAYING or PAUSED and the drift exceeds
1 second, and then as the first command; play and pause are issued only on
an actual state change; CUED reloads exactly when the video id differs (and
never seeks). -/
def C7Prop (selfId : String) (p : PlayerSt) (d : VideoMsg) : Prop :=
  (PAct.seekTo d.currentTime ∈ onVideoStateMsg selfId p d ↔
    ((d.state = YTplaying ∨ d.state = YTpaused) ∧
      |p.currentTime - d.currentTime| > 1)) ∧
  ((d.state = YTplaying ∨ d.state = YTpaused) →
    |p.currentTime - d.currentTime| > 1 →
    (onVideoStateMsg selfId p d).head? = some (PAct.seekTo d.currentTime)) ∧
  (PAct.playVideo ∈ onVideoStateMsg selfId p d ↔
    (d.state = YTplaying ∧ p.playerState ≠ YTplaying)) ∧
  (PAct.pauseVideo ∈ onVideoStateMsg selfId p d ↔
    (d.state = YTpaused ∧ p.playerState ≠ YTpaused)) ∧
  (PAct.loadVideoById d.videoId ∈ onVideoStateMsg selfId p d ↔
    (d.state = YTcued ∧ p.videoId ≠ d.videoId))

/-- Claim C7: for every remote video-state received with a sender other
than this client, the handler seeks to the remote position iff the drift
exceeds 1 second (within the PLAYING and PAUSED cases, and then before the
play or pause command), applies PLAYING and PAUSED only when the local
player is not already in that state, and for CUED reloads only when the
local video id differs. -/
theorem playback_reconciliation (selfId : String) (p : PlayerSt) (d : VideoMsg)
    (hs : d.sender ≠ selfId) : C7Prop selfId p d := by
  unfold C7Prop onVideoStateMsg handleVideoStateChange
  rw [if_pos hs]
  split_ifs with h1 h2 h3 h4 h5 h6 h7 <;>
    simp_all [YTplaying, YTpaused, YTcued]

/-- Concrete local player for the C7 witness: paused at 10 seconds. -/
def c7Player : PlayerSt := { currentTime := 10, playerState := YTpaused, videoId := "v" }

/-- Concrete remote message for the C7 witness: playing at 15.2 seconds. -/
def c7Msg : VideoMsg :=
  { sender := "peer", state := YTplaying, currentTime := 76 / 5, videoId := "v" }

/-- Witness for claim C7 at the playback reconciliation example. -/
theorem playback_reconciliation_witness :
    c7Msg.sender ≠ "me" ∧ C7Prop "me" c7Player c7Msg :=
  ⟨by decide, playback_reconciliation "me" c7Player c7Msg (by decide)⟩

/-! Outgoing video-state emission.  Two revisions coexist in the source:
src/unnamed/part_001 lines 502-559 throttle with lastSyncTime and
syncThrottle = 100 ms and deduplicate against lastVideoState;
src/app.js lines 728-736 only filter for PLAYING/PAUSED with no throttle. -/

/-- Mutable fields of the part_001 emitter: lastSyncTime (ms), the last
sent state and position, and the global ignorePlayerStateChange flag. -/
structure SyncSt where
  lastSyncTime : Nat
  lastVideoState : Option (Int × Rat)
  ignoreFlag : Bool
deriving Repr, DecidableEq

/-- One onStateChange invocation: Date.now(), the connection flag, the
event state and the player position and video id read at that moment. -/
structure TickEv where
  now : Nat
  isConnected : Bool
  evState : Int
  curTime : Rat
  videoId : String
deriving Repr, DecidableEq

/-- The deduplication test of part_001: send only when no state was sent
yet, the state differs, or the position moved by more than 0.5 s. -/
def dedupChanged (last : Option (Int × Rat)) (st : Int) (t : Rat) : Bool :=
  match last with
  | none => true
  | some pr => pr.1 != st || decide (|pr.2 - t| > (1 / 2 : Rat))

/-- YouTubeWatchTogether.onPlayerStateChange, src/unnamed/part_001 lines
502-559: return without any update when less than syncThrottle = 100 ms
elapsed since lastSyncTime; otherwise stamp lastSyncTime, apply the
connection and echo-suppression guard, deduplicate against lastVideoState
(state changed or position moved by more than 0.5 s), and emit the
socket video-state only for PLAYING or PAUSED.  The result records the
emission time and state when a socket emission happens. -/
def onTick001 (st : SyncSt) (e : TickEv) : SyncSt × Option (Nat × Int) :=
  if e.now - st.lastSyncTime < 100 then (st, none)
  else
    let st1 : SyncSt := { st with lastSyncTime := e.now }
    if !e.isConnected || st1.ignoreFlag then ({ st1 with ignoreFlag := false }, none)
    else
      if dedupChanged st1.lastVideoState e.evState e.curTime then
        let st2 := { st1 with lastVideoState := some (e.evState, e.curTime) }
        if e.evState = YTplaying ∨ e.evState = YTpaused then
          (st2, some (e.now, e.evState))
        else (st2, none)
      else (st1, none)

/-- Process a sequence of state-change events through the part_001 emitter,
collecting the times and states of the socket emissions. -/
def runTicks001 (st : SyncSt) (es : List TickEv) : SyncSt × List (Nat × Int) :=
  match es with
  | [] => (st, [])
  | e :: rest =>
    let p := onTick001 st e
    let q := runTicks001 p.1 rest
    (q.1, p.2.toList ++ q.2)

/-- Consecutive emission times are at least 100 ms apart. -/
def gap100 (ts : List Nat) : Prop :=
  List.Chain' (fun a b => a + 100 ≤ b) ts

theorem onTick001_spec (st : SyncSt) (e : TickEv) :
    ((onTick001 st e).2 = none ∧
      ((onTick001 st e).1.lastSyncTime = st.lastSyncTime ∨
        (st.lastSyncTime + 100 ≤ e.now ∧
          (onTick001 st e).1.lastSyncTime = e.now))) ∨
    ((onTick001 st e).2 = some (e.now, e.evState) ∧
      (e.evState = YTplaying ∨ e.evState = YTpaused) ∧
      st.lastSyncTime + 100 ≤ e.now ∧
      (onTick001 st e).1.lastSyncTime = e.now) := by
  by_cases ht : e.now - st.lastSyncTime < 100
  · left
    simp [onTick001, ht]
  · have hge : st.lastSyncTime + 100 ≤ e.now := by omega
    by_cases hc : (!e.isConnected || st.ignoreFlag) = true
    · left
      simp [onTick001, ht, hc, hge]
    · by_cases hchanged : dedupChanged st.lastVideoState e.evState e.curTime = true
      · by_cases hst : e.evState = YTplaying ∨ e.evState = YTpaused
        · right
          simp [onTick001, ht, hc, hchanged, hst, hge]
        · left
          simp [onTick001, ht, hc, hchanged, hst, hge]
      · left
        simp [onTick001, ht, hc, hchanged, hge]

theorem runTicks001_bound (es : List TickEv) : ∀ st : SyncSt,
    (∀ pr ∈ (runTicks001 st es).2,
      st.lastSyncTime + 100 ≤ pr.1 ∧ (pr.2 = YTplaying ∨ pr.2 = YTpaused)) ∧
    gap100 ((runTicks001 st es).2.map Prod.fst) := by
  induction es with
  | nil =>
    intro st
    constructor
    · intro pr hpr; simp [runTicks001] at hpr
    · simp [runTicks001, gap100]
  | cons e rest ih =>
    intro st
    obtain ⟨ihb, ihc⟩ := ih (onTick001 st e).1
    rcases onTick001_spec st e with ⟨hnone, hlast⟩ | ⟨hsome, hstates, hge, hlast⟩
    · constructor
      · intro pr hpr
        simp only [runTicks001, hnone, Option.toList_none, List.nil_append] at hpr
        have hb := ihb pr hpr
        rcases hlast with h | ⟨h1, h2⟩
        · rw [h] at hb; exact hb
        · rw [h2] at hb; exact ⟨by omega, hb.2⟩
      · simp only [runTicks001, hnone, Option.toList_none, List.nil_append]
        exact ihc
    · constructor
      · intro pr hpr
        simp only [runTicks001, hsome, Option.toList_some, List.cons_append,
          List.nil_append, List.mem_cons] at hpr
        rcases hpr with h | h
        · subst h; exact ⟨hge, hstates⟩
        · have hb := ihb pr h
          rw [hlast] at hb
          exact ⟨by omega, hb.2⟩
      · simp only [runTicks001, hsome, Option.toList_some, List.cons_append,
          List.nil_append, List.map_cons, gap100]
        rw [List.chain'_cons']
        constructor
        · intro y hy
          obtain ⟨pr, hpr, hpr2⟩ := List.mem_map.mp (List.mem_of_mem_head? hy)
          have hb := ihb pr hpr
          rw [hlast] at hb
          omega
        · exact ihc

/-- The conclusion of claim C8 as amended, for the part_001 emitter: over
any event sequence from any emitter state, consecutive socket video-state
emissions are at least 100 ms apart and every emission carries PLAYING or
PAUSED. -/
def C8Prop (st : SyncSt) (es : List TickEv) : Prop :=
  gap100 ((runTicks001 st es).2.map Prod.fst) ∧
  ∀ pr ∈ (runTicks001 st es).2, pr.2 = YTplaying ∨ pr.2 = YTpaused

/-- Claim C8 amended: in the part_001 revision of onPlayerStateChange the
outgoing video-state emissions are throttled to a minimum inter-emission
interval of 100 ms and fire only for PLAYING and PAUSED states; in
particular any ten events within 50 ms produce at most one emission.  (The
src/app.js revision drops the throttle, see the counterexample.) -/
theorem video_state_throttled (st : SyncSt) (es : List TickEv) : C8Prop st es :=
  ⟨(runTicks001_bound es st).2, fun pr hpr => ((runTicks001_bound es st).1 pr hpr).2⟩

/-- YouTubeWatchTogether.onPlayerStateChange, src/app.js lines 728-736: no
throttle state; the guard resets the echo flag, and every PLAYING or PAUSED
event while connected emits a socket video-state immediately. -/
def onTickApp (ignoreFlag : Bool) (e : TickEv) : Bool × Option (Nat × Int) :=
  if !e.isConnected || ignoreFlag then (false, none)
  else if e.evState = YTplaying ∨ e.evState = YTpaused then
    (ignoreFlag, some (e.now, e.evState))
  else (ignoreFlag, none)

/-- Process a sequence of state-change events through the app.js emitter. -/
def runTicksApp (flag : Bool) (es : List TickEv) : Bool × List (Nat × Int) :=
  match es with
  | [] => (flag, [])
  | e :: rest =>
    let p := onTickApp flag e
    let q := runTicksApp p.1 rest
    (q.1, p.2.toList ++ q.2)

/-- Two PLAYING state-change events 10 ms apart for the C8 counterexample. -/
def c8Trace : List TickEv :=
  [{ now := 0, isConnected := true, evState := 1, curTime := 0, videoId := "v" },
   { now := 10, isConnected := true, evState := 1, curTime := 0, videoId := "v" }]

/-- Claim C8, counterexample on the src/app.js revision: two PLAYING events
10 ms apart both emit, so two outbound video-state emissions occur less
than 100 ms apart and the claimed throttle does not hold for this revision
of the program. -/
theorem appjs_emitter_not_throttled :
    (runTicksApp false c8Trace).2.map Prod.fst = [0, 10] ∧ (10 : Nat) < 0 + 100 := by
  decide

/-! Chat sending.  Three client revisions coexist: src/app.js lines 755-772
and src/unnamed/part_000 lines 573-603 prefer the data channel and fall
back to the socket only when the channel is not open; src/unnamed/part_001
lines 606-640 always emit on the socket and additionally send on every open
data channel. -/

/-- One outbound chat transmission. -/
inductive ChatSend where
  | viaDataChannel (username text timestamp : String)
  | viaSocket (target message username timestamp : String)
deriving Repr, DecidableEq

/-- Whether a transmission is the socket-relayed chat-message emission. -/
def isSocketSend (s : ChatSend) : Bool :=
  match s with
  | ChatSend.viaSocket _ _ _ _ => true
  | _ => false

/-- Number of socket-relayed chat-message emissions in a send list. -/
def socketSendCount (l : List ChatSend) : Nat :=
  (l.filter isSocketSend).length

/-- YouTubeWatchTogether.sendChatMessage, src/app.js lines 755-772: `msg`
is the trimmed input text; an empty message returns early; otherwise prefer
the data channel when its readyState is open, else fall back to the socket
when connected. -/
def sendChatMessageApp (msg : String) (dcState : Option String)
    (socketConnected : Bool) (roomId username ts : String) : List ChatSend :=
  if msg = "" then []
  else if dcState = some "open" then [ChatSend.viaDataChannel username msg ts]
  else if socketConnected then [ChatSend.viaSocket roomId msg username ts]
  else []

/-- YouTubeWatchTogether.sendChatMessage, src/unnamed/part_000 lines
573-603: identical transmission behaviour to the app.js revision (the
final else only adds the message locally). -/
def sendChatMessage000 (msg : String) (dcState : Option String)
    (socketConnected : Bool) (roomId username ts : String) : List ChatSend :=
  if msg = "" then []
  else if dcState = some "open" then [ChatSend.viaDataChannel username msg ts]
  else if socketConnected then [ChatSend.viaSocket roomId msg username ts]
  else []

/-- YouTubeWatchTogether.sendChatMessage, src/unnamed/part_001 lines
606-640: `msg` is the trimmed input text; an empty message returns early;
otherwise always emit the socket chat-message, then also send on every data
channel whose readyState is open (per peer, the listed channel states). -/
def sendChatMessage001 (msg : String) (peerChans : List (List String))
    (roomId username ts : String) : List ChatSend :=
  if msg = "" then []
  else
    ChatSend.viaSocket roomId msg username ts ::
      (peerChans.map (fun dcs =>
        (dcs.filter (fun st => st == "open")).map
          (fun _ => ChatSend.viaDataChannel username msg ts))).flatten

/-- Claim C9, counterexample on the src/app.js revision: with the data
channel open and the socket connected, sending a chat message produces only
the data-channel transmission and zero socket-relayed chat-message
emissions, so the socket path is replaced, not duplicated. -/
theorem open_channel_suppresses_socket_chat :
    sendChatMessageApp "hi" (some "open") true "R" "u" "t0" =
      [ChatSend.viaDataChannel "u" "hi" "t0"] ∧
    socketSendCount (sendChatMessageApp "hi" (some "open") true "R" "u" "t0") = 0 := by
  decide

/-- The conclusion of claim C9 as amended: in the app.js and part_000
revisions the socket chat-message is emitted exactly once only when the
data channel is not open and the socket is connected (zero times when the
channel is open); in the part_001 revision it is emitted exactly once
regardless of the data channels. -/
def C9Prop (msg : String) (dcState : Option String) (conn : Bool)
    (peerChans : List (List String)) (roomId username ts : String) : Prop :=
  socketSendCount (sendChatMessageApp msg dcState conn roomId username ts) =
    (if dcState = some "open" then 0 else if conn then 1 else 0) ∧
  socketSendCount (sendChatMessage000 msg dcState conn roomId username ts) =
    (if dcState = some "open" then 0 else if conn then 1 else 0) ∧
  socketSendCount (sendChatMessage001 msg peerChans roomId username ts) = 1

/-- Claim C9 amended: for a nonempty chat message, the part_001 revision
always emits exactly one socket-relayed chat-message with the data channels
as an additional best-effort path, while the app.js and part_000 revisions
use the socket only as a fallback: they emit exactly one socket
chat-message when the data channel is not open and the socket is connected,
and none when the data channel is open. -/
theorem chat_socket_emission_count (msg : String) (dcState : Option String)
    (conn : Bool) (peerChans : List (List String)) (roomId username ts : String)
    (h : msg ≠ "") : C9Prop msg dcState conn peerChans roomId username ts := by
  have hdc : ∀ x ∈ (peerChans.map (fun dcs =>
      (dcs.filter (fun st => st == "open")).map
        (fun _ => ChatSend.viaDataChannel username msg ts))).flatten,
      ¬isSocketSend x = true := by
    intro x hx
    rw [List.mem_flatten] at hx
    obtain ⟨l, hl, hxl⟩ := hx
    rw [List.mem_map] at hl
    obtain ⟨dcs, _, rfl⟩ := hl
    rw [List.mem_map] at hxl
    obtain ⟨st, _, rfl⟩ := hxl
    simp [isSocketSend]
  refine ⟨?_, ?_, ?_⟩
  · by_cases h1 : dcState = some "open"
    · simp [sendChatMessageApp, h, h1, socketSendCount, isSocketSend]
    · by_cases h2 : conn <;>
        simp [sendChatMessageApp, h, h1, h2, socketSendCount, isSocketSend]
  · by_cases h1 : dcState = some "open"
    · simp [sendChatMessage000, h, h1, socketSendCount, isSocketSend]
    · by_cases h2 : conn <;>
        simp [sendChatMessage000, h, h1, h2, socketSendCount, isSocketSend]
  · simp only [sendChatMessage001, if_neg h, socketSendCount, List.filter_cons]
    rw [List.filter_eq_nil_iff.mpr hdc]
    rfl

/-- Witness for the amended claim C9: a nonempty message with an open data
channel and a connected socket; the app.js revision emits no socket
message, the part_001 revision exactly one. -/
theorem chat_socket_emission_count_witness :
    ("hi" : String) ≠ "" ∧
      C9Prop "hi" (some "open") true [["open"], ["connecting"]] "R" "u" "t0" :=
  ⟨by decide,
   chat_socket_emission_count "hi" (some "open") true [["open"], ["connecting"]]
     "R" "u" "t0" (by decide)⟩

/-! Auth API endpoints, src/server.js lines 78-141 (identical in
src/unnamed/part_002 lines 89-152).  bcrypt.hash and bcrypt.compare are
external collaborators modelled as black-box functions, passed as functions; uuidv4 and new Date()
are passed as the fresh id and timestamp.  A JSON response body for the
user object is modelled as its key-value list. -/

/-- A record of the in-memory users Map, keyed by email: id, username,
email, the stored bcrypt hash (field named password as in the source) and
createdAt. -/
structure StoredUser where
  id : String
  username : String
  email : String
  password : String
  createdAt : Nat
deriving Repr, DecidableEq

/-- The users Map: email to stored record. -/
abbrev UserStore := List (String × StoredUser)

/-- An HTTP response of the auth endpoints: either a JSON body holding the
signed token payload and the user object (as a key-value list), or an
error status with its message. -/
inductive ApiResp where
  | okResp (tokenPayload : String × String × String) (userBody : List (String × String))
  | errResp (status : Nat) (error : String)
deriving Repr, DecidableEq

/-- The signup handler, src/server.js lines 78-107: 400 when a field is
missing, 409 when the email is already registered, else store the new user
with the hashed password and respond with the token payload and a user
object of exactly id, username and email. -/
def signup (store : UserStore) (username email password : String)
    (hash : String → String) (freshId : String) (now : Nat) :
    ApiResp × UserStore :=
  if username = "" ∨ email = "" ∨ password = "" then
    (ApiResp.errResp 400 "All fields are required", store)
  else if (alookup store email).isSome then
    (ApiResp.errResp 409 "User with this email already exists", store)
  else
    let u : StoredUser :=
      { id := freshId, username := username, email := email,
        password := hash password, createdAt := now }
    (ApiResp.okResp (u.id, u.email, u.username)
       [("id", u.id), ("username", u.username), ("email", u.email)],
     aset store email u)

/-- The signin handler, src/server.js lines 109-141: 400 when a field is
missing, 401 when the email is unknown or the password does not compare,
else respond with the token payload and the same three-field user object. -/
def signin (store : UserStore) (email password : String)
    (cmp : String → String → Bool) : ApiResp :=
  if email = "" ∨ password = "" then
    ApiResp.errResp 400 "Email and password are required"
  else
    match alookup store email with
    | none => ApiResp.errResp 401 "Invalid email or password"
    | some u =>
      if cmp password u.password then
        ApiResp.okResp (u.id, u.email, u.username)
          [("id", u.id), ("username", u.username), ("email", u.email)]
      else ApiResp.errResp 401 "Invalid email or password"

/-- The conclusion of claim C10: a signup carrying the three fields with an
already-registered email yields 409 with an error body and leaves the store
(hence the existing record and its hash) untouched; a successful signup
stores the hashed password and answers with a user object of exactly the
keys id, username, email; every okResp body of signup or signin has exactly
those keys, so the stored password hash field is never exposed. -/
def C10Prop (store : UserStore) (username email password freshId : String)
    (hash : String → String) (now : Nat) (cmp : String → String → Bool) : Prop :=
  (username ≠ "" → email ≠ "" → password ≠ "" → (alookup store email).isSome →
    signup store username email password hash freshId now =
      (ApiResp.errResp 409 "User with this email already exists", store)) ∧
  (username ≠ "" → email ≠ "" → password ≠ "" → alookup store email = none →
    signup store username email password hash freshId now =
      (ApiResp.okResp (freshId, email, username)
         [("id", freshId), ("username", username), ("email", email)],
       aset store email
         { id := freshId, username := username, email := email,
           password := hash password, createdAt := now })) ∧
  (∀ u : StoredUser, email ≠ "" → password ≠ "" → alookup store email = some u →
    cmp password u.password = true →
    signin store email password cmp =
      ApiResp.okResp (u.id, u.email, u.username)
        [("id", u.id), ("username", u.username), ("email", u.email)]) ∧
  (∀ tp body, (signup store username email password hash freshId now).1 =
      ApiResp.okResp tp body → body.map Prod.fst = ["id", "username", "email"]) ∧
  (∀ tp body, signin store email password cmp = ApiResp.okResp tp body →
    body.map Prod.fst = ["id", "username", "email"])

/-- Claim C10: a signup whose email is already registered answers 409 with
an error body and leaves the user store unchanged, and every successful
signup or signin response exposes a user object holding only id, username
and email, never the stored password hash. -/
theorem auth_endpoint_responses (store : UserStore)
    (username email password freshId : String) (hash : String → String)
    (now : Nat) (cmp : String → String → Bool) :
    C10Prop store username email password freshId hash now cmp := by
  refine ⟨?_, ?_, ?_, ?_, ?_⟩
  · intro hu he hp hsome
    rw [signup, if_neg (by simp [hu, he, hp]), if_pos hsome]
  · intro hu he hp hnone
    rw [signup, if_neg (by simp [hu, he, hp]), if_neg (by simp [hnone])]
  · intro u he hp hlook hcmp
    rw [signin, if_neg (by simp [he, hp])]
    simp only [hlook]
    rw [if_pos hcmp]
  · intro tp body hb
    rw [signup] at hb
    split_ifs at hb
    all_goals simp at hb
    rw [← hb.2]
    rfl
  · intro tp body hb
    rw [signin] at hb
    by_cases hfields : email = "" ∨ password = ""
    · rw [if_pos hfields] at hb
      cases hb
    · rw [if_neg hfields] at hb
      cases hlook : alookup store email with
      | none =>
        rw [hlook] at hb
        cases hb
      | some u =>
        rw [hlook] at hb
        have hb2 : (if cmp password u.password then
            ApiResp.okResp (u.id, u.email, u.username)
              [("id", u.id), ("username", u.username), ("email", u.email)]
          else ApiResp.errResp 401 "Invalid email or password") =
            ApiResp.okResp tp body := hb
        by_cases hcmp : cmp password u.password
        · rw [if_pos hcmp] at hb2
          cases hb2
          rfl
        · rw [if_neg hcmp] at hb2
          cases hb2

/-- The concrete user store for the C10 witness: one registered user. -/
def c10Store : UserStore :=
  [("t@u", { id := "1", username := "T", email := "t@u", password := "H",
             createdAt := 0 })]

/-- Witness for claim C10: a duplicate signup answers 409 and leaves the
store untouched, and a successful signin exposes only id, username and
email. -/
theorem auth_endpoint_responses_witness :
    signup c10Store "X" "t@u" "pw" (fun p => String.append p "#") "9" 5 =
      (ApiResp.errResp 409 "User with this email already exists", c10Store) ∧
    signin c10Store "t@u" "pw" (fun _ _ => true) =
      ApiResp.okResp ("1", "t@u", "T")
        [("id", "1"), ("username", "T"), ("email", "t@u")] :=
  ⟨(auth_endpoint_responses c10Store "X" "t@u" "pw" "9"
      (fun p => String.append p "#") 5 (fun _ _ => true)).1
      (by decide) (by decide) (by decide) (by decide),
   (auth_endpoint_responses c10Store "X" "t@u" "pw" "9"
      (fun p => String.append p "#") 5 (fun _ _ => true)).2.2.1
      { id := "1", username := "T", email := "t@u", password := "H", createdAt := 0 }
      (by decide) (by decide) (by decide) (by decide)⟩

end WatchTogether
